import Mathlib

/-!
Verification of the CoReason sandbox Session Orchestrator.

The Python sources under `src/coreason_sandbox` are shallowly embedded:
stateful code becomes explicit state passing, byte strings become
`List Nat` (each element < 256 at concrete inputs), decoded text becomes
`List Nat` of Unicode code points, and fallible code returns
`Except PyErr`.  Behaviour of the external collaborators (the Docker
daemon, the E2B SDK, the host `pip`, wall-clock readings) is passed in
as explicit parameters, so every embedded function is a pure function
of its inputs.
-/

namespace CoreasonSandbox

/-- The Python exception kinds raised by the embedded code paths.
`valueError`, `permissionError`, `runtimeError`, `timeoutError`,
`unicodeDecodeError` and `typeError` mirror the builtin exception
classes of the same names; `backendError` stands for an exception
raised inside the backend SDK (a `DockerException`, or an E2B SDK
error) and propagated unchanged. -/
inductive PyErr where
  | valueError (msg : String)
  | permissionError
  | runtimeError (msg : String)
  | timeoutError
  | unicodeDecodeError
  | typeError
  | backendError
  deriving DecidableEq, Repr

/-! ## UTF-8: CPython's strict `bytes.decode("utf-8")`

`DockerRuntime.execute` (docker.py:250-251) and
`DockerRuntime.list_files` (docker.py:95,99) call `.decode("utf-8")`
with the default `errors="strict"` handler.  `decodeUtf8?` models that
decoder: it accepts exactly well-formed UTF-8 (no overlong forms, no
surrogates, no code points above U+10FFFF; lead bytes C0, C1 and F5-FF
rejected) and returns the code-point sequence, and it returns `none`
exactly where CPython raises `UnicodeDecodeError`. -/

/-- A UTF-8 continuation byte: `0x80 ≤ c < 0xC0`. -/
def contByte (c : Nat) : Bool := 0x80 ≤ c && c < 0xC0

/-- Decode one UTF-8-encoded code point from the front of a byte list,
returning the code point and the remaining bytes, or `none` on
malformed input (CPython's strict handler would raise there). -/
def decodeOne : List Nat → Option (Nat × List Nat)
  | [] => none
  | b :: rest =>
    if b < 0x80 then some (b, rest)
    else if b < 0xC2 then none
    else if b < 0xE0 then
      match rest with
      | c1 :: rest2 =>
        if contByte c1 then some ((b - 0xC0) * 64 + (c1 - 0x80), rest2) else none
      | [] => none
    else if b < 0xF0 then
      match rest with
      | c1 :: c2 :: rest2 =>
        if contByte c1 && contByte c2 then
          let cp := (b - 0xE0) * 4096 + (c1 - 0x80) * 64 + (c2 - 0x80)
          if cp < 0x800 || (0xD800 ≤ cp && cp < 0xE000) then none
          else some (cp, rest2)
        else none
      | _ => none
    else if b < 0xF5 then
      match rest with
      | c1 :: c2 :: c3 :: rest2 =>
        if contByte c1 && contByte c2 && contByte c3 then
          let cp := (b - 0xF0) * 262144 + (c1 - 0x80) * 4096 + (c2 - 0x80) * 64 + (c3 - 0x80)
          if cp < 0x10000 || 0x110000 ≤ cp then none
          else some (cp, rest2)
        else none
      | _ => none
    else none

theorem decodeOne_length {bs : List Nat} {cp : Nat} {rest : List Nat}
    (h : decodeOne bs = some (cp, rest)) : rest.length < bs.length := by
  match bs with
  | [] => simp [decodeOne] at h
  | b :: t =>
    unfold decodeOne at h
    repeat' split at h
    all_goals simp_all
    all_goals omega

/-- Standard UTF-8 encoding of a single code point. -/
def encodeUtf8Char (c : Nat) : List Nat :=
  if c < 0x80 then [c]
  else if c < 0x800 then [0xC0 + c / 64, 0x80 + c % 64]
  else if c < 0x10000 then
    [0xE0 + c / 4096, 0x80 + (c / 64) % 64, 0x80 + c % 64]
  else
    [0xF0 + c / 262144, 0x80 + (c / 4096) % 64, 0x80 + (c / 64) % 64, 0x80 + c % 64]

/-- Standard UTF-8 encoding of a code-point sequence. -/
def encodeUtf8 (cs : List Nat) : List Nat := (cs.map encodeUtf8Char).flatten

/-- Strict UTF-8 decoding, fuelled so that it is kernel-computable;
the fuel is always instantiated with the length of the input. -/
def decodeUtf8Aux : Nat → List Nat → Option (List Nat)
  | _, [] => some []
  | 0, _ :: _ => none
  | fuel + 1, b :: t =>
    match decodeOne (b :: t) with
    | none => none
    | some (cp, rest) => (decodeUtf8Aux fuel rest).map (fun cs => cp :: cs)

/-- CPython's `bytes.decode("utf-8")` with the default strict error
handler: `some` of the code points on well-formed input, `none`
(a raised `UnicodeDecodeError`) otherwise. -/
def decodeUtf8? (bs : List Nat) : Option (List Nat) := decodeUtf8Aux bs.length bs

theorem decodeOne_sound {bs : List Nat} {cp : Nat} {rest : List Nat}
    (h : decodeOne bs = some (cp, rest)) : encodeUtf8Char cp ++ rest = bs := by
  match bs with
  | [] => simp [decodeOne] at h
  | b :: t =>
    unfold decodeOne at h
    repeat' split at h
    all_goals simp_all [contByte]
    all_goals unfold encodeUtf8Char
    all_goals repeat' split
    all_goals simp_all
    all_goals omega

theorem decodeUtf8Aux_sound :
    ∀ (fuel : Nat) (bs cs : List Nat), bs.length ≤ fuel →
      decodeUtf8Aux fuel bs = some cs → encodeUtf8 cs = bs := by
  intro fuel
  induction fuel with
  | zero =>
    intro bs cs hlen h
    match bs with
    | [] =>
      simp [decodeUtf8Aux] at h
      simp [h, encodeUtf8]
    | _ :: _ => simp at hlen
  | succ n ih =>
    intro bs cs hlen h
    match bs with
    | [] =>
      simp [decodeUtf8Aux] at h
      simp [h, encodeUtf8]
    | b :: t =>
      rw [decodeUtf8Aux] at h
      cases hd : decodeOne (b :: t) with
      | none => rw [hd] at h; simp at h
      | some pr =>
        obtain ⟨cp, rest⟩ := pr
        rw [hd] at h
        rcases Option.map_eq_some'.mp h with ⟨cs', hcs', rfl⟩
        have hlt := decodeOne_length hd
        have henc := ih rest cs' (by simp at hlt hlen ⊢; omega) hcs'
        have hone := decodeOne_sound hd
        calc encodeUtf8 (cp :: cs')
            = encodeUtf8Char cp ++ encodeUtf8 cs' := by simp [encodeUtf8]
          _ = encodeUtf8Char cp ++ rest := by rw [henc]
          _ = b :: t := hone

/-- Soundness of the strict decoder: whenever decoding succeeds, the
decoded code points re-encode to exactly the input bytes — nothing is
ever replaced or dropped. -/
theorem decodeUtf8_sound {bs cs : List Nat} (h : decodeUtf8? bs = some cs) :
    encodeUtf8 cs = bs := decodeUtf8Aux_sound bs.length bs cs le_rfl h

/-- The pattern `x.decode("utf-8") if x else ""` applied to the demuxed
streams in docker.py:250-251: a missing (`None`) or empty byte string
yields the empty text, otherwise a strict decode whose failure raises
`UnicodeDecodeError`. -/
def decodePyBytes : Option (List Nat) → Except PyErr (List Nat)
  | none => .ok []
  | some bs =>
    if bs.isEmpty then .ok []
    else
      match decodeUtf8? bs with
      | some cs => .ok cs
      | none => .error .unicodeDecodeError

/-- The bytes a stream held: `None` behaves as the empty byte string. -/
def optBytes : Option (List Nat) → List Nat
  | none => []
  | some bs => bs

/-! ## Data model (models/result.py, models.py)

Decoded text is represented as `List Nat` of code points. -/

/-- `FileReference`, with the fields populated by
`ArtifactManager.process_file` (artifacts.py:68-80). -/
structure FileReference where
  filename : String
  path : String
  contentType : Option String
  sizeBytes : Option Nat
  url : Option String
  deriving DecidableEq, Repr

/-- `ExecutionResult` (stdout/stderr as decoded code points,
`execution_duration` in abstract clock units). -/
structure ExecutionResult where
  stdout : List Nat
  stderr : List Nat
  exitCode : Int
  artifacts : List FileReference
  executionDuration : Nat
  deriving DecidableEq, Repr

/-! ## Artifact Processor (artifacts.py) -/

/-- ASCII lower-casing of one character (the only case folding the
package names and MIME strings here need). -/
def charLower (c : Char) : Char :=
  if 'A' ≤ c ∧ c ≤ 'Z' then Char.ofNat (c.toNat + 32) else c

/-- Python's `str.lower` on the ASCII strings this development handles. -/
def pyToLower (s : String) : String := String.mk (s.toList.map charLower)

/-- Python's `str.startswith`. -/
def pyStartsWith (s pre : String) : Bool := pre.toList.isPrefixOf s.toList

/-- Lower-cased extension after the last dot of a filename, the key
CPython's `mimetypes.guess_type` looks up ("" when there is no dot). -/
def extensionOf (name : String) : String :=
  let revChars := name.toList.reverse
  let revExt := revChars.takeWhile (fun c => c ≠ '.')
  if revExt.length = revChars.length then ""
  else String.mk (revExt.reverse.map charLower)

/-- `mimetypes.guess_type` restricted to the extensions exercised by
this development (the standard CPython table entries for them). -/
def guessMimeType (filename : String) : Option String :=
  match extensionOf filename with
  | "png" => some "image/png"
  | "jpg" => some "image/jpeg"
  | "jpeg" => some "image/jpeg"
  | "gif" => some "image/gif"
  | "svg" => some "image/svg+xml"
  | "txt" => some "text/plain"
  | "csv" => some "text/csv"
  | "json" => some "application/json"
  | "pdf" => some "application/pdf"
  | "html" => some "text/html"
  | _ => none

/-- The standard base64 alphabet. -/
def base64Chars : List Char :=
  "ABCDEFGHIJKLMNOPQRSTUVWXYZabcdefghijklmnopqrstuvwxyz0123456789+/".toList

def base64Char (n : Nat) : Char := base64Chars.getD n 'A'

/-- RFC 4648 base64 of a byte list, as `base64.b64encode` produces. -/
def base64Encode : List Nat → String
  | [] => ""
  | [a] =>
    String.mk [base64Char (a / 4), base64Char ((a % 4) * 16), '=', '=']
  | [a, b] =>
    String.mk [base64Char (a / 4), base64Char ((a % 4) * 16 + b / 16),
      base64Char ((b % 16) * 4), '=']
  | a :: b :: c :: rest =>
    String.mk [base64Char (a / 4), base64Char ((a % 4) * 16 + b / 16),
      base64Char ((b % 16) * 4 + c / 64), base64Char (c % 64)] ++ base64Encode rest

/-- `ArtifactManager.process_file` (artifacts.py:41-91), for a local
file that exists (the caller just downloaded it).  MIME is guessed from
the original filename with fallback `application/octet-stream`; images
are inlined as base64 data URIs; other files are uploaded when an
object store is configured, with `uploadResult = none` standing for an
upload failure, which is swallowed leaving `url` unset. -/
def ArtifactManager.processFile (storageConfigured : Bool) (uploadResult : Option String)
    (fileBytes : List Nat) (filePath : String) (originalFilename : String) : FileReference :=
  let mimeType := (guessMimeType originalFilename).getD "application/octet-stream"
  let fileRef : FileReference :=
    { filename := originalFilename, path := filePath, contentType := some mimeType,
      sizeBytes := some fileBytes.length, url := none }
  if pyStartsWith mimeType "image/" then
    { fileRef with url := some ("data:" ++ mimeType ++ ";base64," ++ base64Encode fileBytes) }
  else if storageConfigured then
    match uploadResult with
    | some u => { fileRef with url := some u }
    | none => fileRef
  else fileRef

/-- Number of positional arguments the drivers pass to
`artifact_manager.process_file`: docker.py:266 and e2b.py:255 both call
`self.artifact_manager.process_file(local_path, filename)`. -/
def processFilePassedArgs : Nat := 2

/-- Number of required parameters of `ArtifactManager.process_file`
(artifacts.py:41-43): `file_path`, `original_filename`, `context`,
`session_id`. -/
def processFileRequiredParams : Nat := 4

/-- The driver-side invocation of `process_file`.  CPython binds the
argument list against the callee's signature before running the body;
when the arities disagree the call raises `TypeError` (two missing
required positional arguments) without executing `process_file`. -/
def callProcessFile (storageConfigured : Bool) (uploadResult : Option String)
    (fileBytes : List Nat) (filePath : String) (originalFilename : String) :
    Except PyErr FileReference :=
  if processFilePassedArgs = processFileRequiredParams then
    .ok (ArtifactManager.processFile storageConfigured uploadResult fileBytes
      filePath originalFilename)
  else .error .typeError

/-- The per-addition loop of docker.py:259-269 (identical in
e2b.py:248-258): download each new file — `download f = none` meaning
the download raised — then call `process_file`; any exception is
logged and the file skipped. -/
def collectArtifacts (newFiles : List String) (download : String → Option (List Nat))
    (storageConfigured : Bool) (upload : String → Option String) : List FileReference :=
  newFiles.filterMap (fun filename =>
    match download filename with
    | none => none
    | some fileBytes =>
      (callProcessFile storageConfigured (upload filename) fileBytes filename filename).toOption)

/-! ## DockerRuntime (runtimes/docker.py) -/

/-- The three languages of the `Literal["python", "bash", "r"]` type. -/
inductive Language where
  | python
  | bash
  | r
  deriving DecidableEq, Repr

/-- The command built by docker.py:221-229 for each language. -/
def dockerCmdFor (language : Language) (code : String) : List String :=
  match language with
  | .python => ["python", "-c", code]
  | .bash => ["bash", "-c", code]
  | .r => ["Rscript", "-e", code]

/-- docker.py:89-90: a relative path is resolved against the working
directory `/home/user` before being handed to `ls -1`. -/
def dockerLsTarget (path : String) : String :=
  if path.startsWith "/" then path else "/home/user/" ++ path

/-- State of a `DockerRuntime` instance.  `container = some stray`
means the container is running and `stray` lists the processes left
behind inside it by earlier calls (a timed-out `exec_run` keeps its
process alive until the container is restarted). -/
structure DockerRuntime where
  allowedPackages : List String
  timeout : Nat
  storageConfigured : Bool
  container : Option (List String)
  deriving DecidableEq, Repr

/-- Environment behaviour of one `execute` call: how long the exec'd
command runs, its demuxed output, the working-directory listings taken
before and after it, and the outcome of each artifact download and
upload. -/
structure ExecBehavior where
  time : Nat
  exitCode : Int
  stdout : Option (List Nat)
  stderr : Option (List Nat)
  filesBefore : List String
  filesAfter : List String
  download : String → Option (List Nat)
  upload : String → Option String

/-- `DockerRuntime.execute` (docker.py:209-283).  The timed-out branch
(docker.py:239-245) restarts the container — killing every process in
it — and raises `TimeoutError`; otherwise the demuxed streams are
strictly UTF-8 decoded (docker.py:249-251, a decode failure
propagates), the working-directory diff is taken and each addition is
downloaded and pushed through the artifact loop. -/
def DockerRuntime.execute (rt : DockerRuntime) (code : String) (language : Language)
    (beh : ExecBehavior) : DockerRuntime × Except PyErr ExecutionResult :=
  match rt.container with
  | none => (rt, .error (.runtimeError "Sandbox not started"))
  | some _stray =>
    let _cmd : List String := dockerCmdFor language code
    if rt.timeout < beh.time then
      ({ rt with container := some [] }, .error .timeoutError)
    else
      match decodePyBytes beh.stdout with
      | .error e => (rt, .error e)
      | .ok stdoutStr =>
        match decodePyBytes beh.stderr with
        | .error e => (rt, .error e)
        | .ok stderrStr =>
          let newFiles := beh.filesAfter.filter (fun f => ¬ beh.filesBefore.contains f)
          let artifacts :=
            collectArtifacts newFiles beh.download rt.storageConfigured beh.upload
          (rt, .ok {
            stdout := stdoutStr
            stderr := stderrStr
            exitCode := beh.exitCode
            artifacts := artifacts
            executionDuration := beh.time })

/-- Python's `str.strip` over ASCII whitespace (the characters that can
occur around an `ls -1` line). -/
def isPySpace (c : Nat) : Bool :=
  c = 32 || c = 9 || c = 10 || c = 13 || c = 11 || c = 12

def stripCp (s : List Nat) : List Nat :=
  ((s.dropWhile isPySpace).reverse.dropWhile isPySpace).reverse

/-- `str.splitlines` over the line breaks `\n`, `\r\n` and `\r`
(no trailing empty line for a trailing terminator). -/
def splitLinesAux : List Nat → List Nat → List (List Nat)
  | [], acc => if acc.isEmpty then [] else [acc.reverse]
  | 13 :: 10 :: rest, acc => acc.reverse :: splitLinesAux rest []
  | 13 :: rest, acc => acc.reverse :: splitLinesAux rest []
  | 10 :: rest, acc => acc.reverse :: splitLinesAux rest []
  | c :: rest, acc => splitLinesAux rest (c :: acc)

def splitLines (s : List Nat) : List (List Nat) := splitLinesAux s []

/-- `DockerRuntime.list_files` (docker.py:80-100).  `lsExit`/`lsOutput`
are the result of `exec_run (ls -1 path)`.  A non-zero exit code is
logged (strictly decoding the output for the log message, empty output
logging "Unknown error") and the empty list returned; on success the
output is strictly decoded, split into lines, stripped, and empties
dropped. -/
def DockerRuntime.listFiles (rt : DockerRuntime) (path : String) (lsExit : Int)
    (lsOutput : List Nat) : Except PyErr (List (List Nat)) :=
  match rt.container with
  | none => .error (.runtimeError "Sandbox not started")
  | some _ =>
    let _target := dockerLsTarget path
    if lsExit ≠ 0 then
      if lsOutput.isEmpty then .ok []
      else
        match decodeUtf8? lsOutput with
        | none => .error .unicodeDecodeError
        | some _ => .ok []
    else
      match decodeUtf8? lsOutput with
      | none => .error .unicodeDecodeError
      | some text =>
        .ok (((splitLines text).map stripCp).filter (fun f => ¬ f.isEmpty))

/-- Characters `packaging.requirements.Requirement` accepts inside a
project name (PEP 508 identifier characters). -/
def isNameChar (c : Char) : Bool :=
  c.isAlpha || c.isDigit || c = '-' || c = '_' || c = '.'

/-- The project name `Requirement(spec).name` extracts: the leading run
of name characters, before any extras, version specifiers or markers.
A spec with no leading name makes the constructor raise, surfaced as
`none`.  (Validation of the version-specifier tail is behaviour of the
external `packaging` library and is not modelled further; the claims
only exercise well-formed specs.) -/
def parseRequirementName (spec : String) : Option String :=
  let name := spec.toList.takeWhile isNameChar
  if name.isEmpty then none else some (String.mk name)

/-- The message of docker.py:178. -/
def notAllowedMsg (spec base : String) : String :=
  "Package " ++ spec ++ " (base: " ++ base ++ ") is not in the allowed list."

/-- `DockerRuntime.install_package` (docker.py:161-207).  Returns the
call outcome paired with whether `pip install` was actually run inside
the container.  The base name is parsed from the requirement spec,
lower-cased and checked against the lower-cased allowlist before any
install work happens; `hostDownloadOk` is the outcome of the host-side
wheel download, `pipExit` the exit code of the offline install. -/
def DockerRuntime.installPackage (rt : DockerRuntime) (spec : String)
    (hostDownloadOk : Bool) (pipExit : Int) : Except PyErr Unit × Bool :=
  match rt.container with
  | none => (.error (.runtimeError "Sandbox not started"), false)
  | some _ =>
    match parseRequirementName spec with
    | none => (.error (.valueError ("Invalid package requirement: " ++ spec)), false)
    | some name =>
      let basePackageName := pyToLower name
      let allowedLower := rt.allowedPackages.map (fun p => pyToLower p)
      if allowedLower.contains basePackageName then
        if hostDownloadOk then
          if pipExit = 0 then (.ok (), true)
          else (.error (.runtimeError "Failed to install package"), true)
        else (.error (.runtimeError "Failed to download package"), false)
      else
        (.error (.valueError (notAllowedMsg spec basePackageName)), false)

/-- The default `allowed_packages` of `SandboxConfig` (config.py). -/
def defaultAllowedPackages : List String :=
  ["pandas", "numpy", "matplotlib", "seaborn", "scikit-learn", "scipy"]

/-! ## E2BRuntime (runtimes/e2b.py) -/

/-- State of an `E2BRuntime` instance: the current remote sandbox (by
id) if one is open, and the next id the E2B service would hand out. -/
structure E2BRuntime where
  timeout : Nat
  storageConfigured : Bool
  sandbox : Option Nat
  nextSandboxId : Nat
  deriving DecidableEq, Repr

/-- `E2BRuntime.start` (e2b.py:45-70): an already-open sandbox is
terminated first, then a fresh remote sandbox is created (`startOk =
false` models an SDK failure, which is propagated). -/
def E2BRuntime.start (rt : E2BRuntime) (startOk : Bool) : E2BRuntime × Except PyErr Unit :=
  let rt0 := { rt with sandbox := none }
  if startOk then
    ({ rt0 with
        sandbox := some rt0.nextSandboxId
        nextSandboxId := rt0.nextSandboxId + 1 }, .ok ())
  else (rt0, .error .backendError)

/-- The value of `sandbox.commands.run`: stdout/stderr already decoded
by the SDK. -/
structure CommandResult where
  stdout : List Nat
  stderr : List Nat
  exitCode : Int
  deriving DecidableEq, Repr

/-- Environment behaviour of one E2B `execute` call over the
`commands.run` path. -/
structure E2BBehavior where
  cmdTime : Nat
  result : CommandResult
  filesBefore : List String
  filesAfter : List String
  download : String → Option (List Nat)
  upload : String → Option String

/-- `E2BRuntime.execute` for the `bash` language (e2b.py:226-266),
whose SDK call runs through `_run_sdk_command` (e2b.py:137-162): when
the call outlives the timeout, the runtime terminates the remote
sandbox, starts a replacement, and raises `TimeoutError`; otherwise
the command result is returned with the filesystem artifact diff
appended. -/
def E2BRuntime.executeBash (rt : E2BRuntime) (code : String) (beh : E2BBehavior) :
    E2BRuntime × Except PyErr ExecutionResult :=
  match rt.sandbox with
  | none => (rt, .error (.runtimeError "Sandbox not started"))
  | some _ =>
    let _cmd : String := code
    if rt.timeout < beh.cmdTime then
      (((rt.start true).1), .error .timeoutError)
    else
      let newFiles := beh.filesAfter.filter (fun f => ¬ beh.filesBefore.contains f)
      let artifacts := collectArtifacts newFiles beh.download rt.storageConfigured beh.upload
      (rt, .ok {
        stdout := beh.result.stdout
        stderr := beh.result.stderr
        exitCode := beh.result.exitCode
        artifacts := artifacts
        executionDuration := beh.cmdTime })

/-- `E2BRuntime.install_package` (e2b.py:72-96): with a running
sandbox, `pip install {package_name}` is run via `commands.run` for
every spec — there is no allowlist lookup on this driver.  The second
component records the command executed in the sandbox, if any. -/
def E2BRuntime.installPackage (rt : E2BRuntime) (packageName : String) (sdkOk : Bool) :
    Except PyErr Unit × Option String :=
  match rt.sandbox with
  | none => (.error (.runtimeError "Sandbox not started"), none)
  | some _ =>
    if sdkOk then (.ok (), some ("pip install " ++ packageName))
    else (.error .backendError, some ("pip install " ++ packageName))

/-- `E2BRuntime.list_files` (e2b.py:98-120): `files.list` results are
returned by entry name; any SDK exception is logged and the empty list
returned. -/
def E2BRuntime.listFiles (rt : E2BRuntime) (sdkResult : Except Unit (List String)) :
    Except PyErr (List String) :=
  match rt.sandbox with
  | none => .error (.runtimeError "Sandbox not started")
  | some _ =>
    match sdkResult with
    | .error _ => .ok []
    | .ok entries => .ok entries

/-! ## SessionManager (session_manager.py) -/

/-- The `Session` dataclass (session_manager.py:23-29); the owned
runtime instance is identified by `runtimeId`. -/
structure Session where
  runtimeId : Nat
  lastAccessed : Nat
  ownerId : String
  active : Bool := true
  deriving DecidableEq, Repr

/-- Association-list view of a Python dict keyed by strings. -/
def alistLookup {α : Type} : List (String × α) → String → Option α
  | [], _ => none
  | (k, v) :: rest, sid => if k = sid then some v else alistLookup rest sid

/-- Python dict assignment `d[sid] = v`. -/
def alistSet {α : Type} : List (String × α) → String → α → List (String × α)
  | [], sid, v => [(sid, v)]
  | (k, v') :: rest, sid, v =>
    if k = sid then (k, v) :: rest else (k, v') :: alistSet rest sid v

abbrev SessionMap := List (String × Session)

/-- `SessionManager.get_or_create_session` (session_manager.py:50-113).
`m0` is the map as seen by the optimistic read, `m1` the map as seen by
the double-check once the creation lock is held (they differ exactly
when a concurrent creation interleaved).  `startResult = some e` means
`runtime.start()` raised `e`; `freshRuntimeId` identifies the runtime
the factory would build; `now` is the `time.time()` reading.  Returns
the map this call leaves behind together with the outcome.  (The lazy
reaper start of line 72 touches only the reaper task and is modelled
with the manager-state layer below.) -/
def SessionManager.getOrCreateSession (sessionId : String) (user : Option String)
    (m0 m1 : SessionMap) (startResult : Option PyErr) (freshRuntimeId : Nat) (now : Nat) :
    SessionMap × Except PyErr Session :=
  if sessionId = "" then (m0, .error (.valueError "Session ID is required"))
  else
    match user with
    | none => (m0, .error (.valueError "UserContext is required"))
    | some uid =>
      match alistLookup m0 sessionId with
      | some session =>
        if session.ownerId ≠ uid then (m0, .error .permissionError)
        else
          let session' := { session with lastAccessed := now }
          (alistSet m0 sessionId session', .ok session')
      | none =>
        match alistLookup m1 sessionId with
        | some session =>
          if session.ownerId ≠ uid then (m1, .error .permissionError)
          else
            let session' := { session with lastAccessed := now }
            (alistSet m1 sessionId session', .ok session')
        | none =>
          match startResult with
          | some e => (m1, .error e)
          | none =>
            let session : Session :=
              { runtimeId := freshRuntimeId, lastAccessed := now, ownerId := uid, active := true }
            (alistSet m1 sessionId session, .ok session)

/-- The `SessionManager`-level state relevant to `shutdown`. -/
structure ManagerState where
  sessions : SessionMap
  reaperRunning : Bool
  deriving DecidableEq, Repr

/-- What a `shutdown` call did, observably. -/
structure ShutdownEffects where
  reaperCancelled : Bool
  terminatedRuntimes : List Nat
  deriving DecidableEq, Repr

/-- `SessionManager.shutdown` (session_manager.py:157-183): cancel the
reaper if it is running, snapshot the sessions, clear the map, then set
each snapshot session inactive and call its runtime's `terminate()`.
`_terminateFails` says which terminations raise; every such exception
is caught, logged and swallowed, so it influences nothing observable. -/
def SessionManager.shutdown (st : ManagerState) (_terminateFails : Nat → Bool) :
    ManagerState × ShutdownEffects :=
  let reaperCancelled := st.reaperRunning
  let sessionsToClose := st.sessions.map (fun p => p.2.runtimeId)
  ({ sessions := [], reaperRunning := false },
   { reaperCancelled := reaperCancelled, terminatedRuntimes := sessionsToClose })

/-! ## SandboxMCP (mcp.py) -/

/-- The ownerless `Session` dataclass of mcp.py:14-19. -/
structure MCPSession where
  runtimeId : Nat
  lastAccessed : Nat
  active : Bool := true
  deriving DecidableEq, Repr

abbrev MCPSessionMap := List (String × MCPSession)

/-- `SandboxMCP._get_or_create_session` (mcp.py:71-100).  Unlike the
`SessionManager` variant it takes no user context and performs no
session-id validation: a registered session is returned to any caller,
and any string — the empty string included — is an acceptable key. -/
def SandboxMCP.getOrCreateSession (sessionId : String) (m0 m1 : MCPSessionMap)
    (startResult : Option PyErr) (freshRuntimeId : Nat) (now : Nat) :
    MCPSessionMap × Except PyErr MCPSession :=
  match alistLookup m0 sessionId with
  | some session =>
    let session' := { session with lastAccessed := now }
    (alistSet m0 sessionId session', .ok session')
  | none =>
    match alistLookup m1 sessionId with
    | some session =>
      let session' := { session with lastAccessed := now }
      (alistSet m1 sessionId session', .ok session')
    | none =>
      match startResult with
      | some e => (m1, .error e)
      | none =>
        let session : MCPSession :=
          { runtimeId := freshRuntimeId, lastAccessed := now, active := true }
        (alistSet m1 sessionId session, .ok session)

/-- One turn of the `while True` scope loop of a `SandboxMCP`
operation: either the operation completed (`done`) or the session was
found inactive under its lock and the loop re-enters (`retry`). -/
inductive ScopeStep (α : Type) where
  | done (m : MCPSessionMap) (r : Except PyErr α)
  | retry (m : MCPSessionMap)
  deriving Repr

/-- One pass of `SandboxMCP.execute_code` (mcp.py:102-143).
`tAcquire` is the `time.time()` reading taken while acquiring the
session inside `_get_or_create_session`; `tExit` the reading line 124
would take after the driver call; `execOutcome` the outcome of
`session.runtime.execute`.  On success `last_accessed` is set to
`tExit` before the lock is released; when `execute` raises, the
exception propagates out of the `async with session.lock` block and
line 124 never runs.  (The audit call of line 119 swallows its own
errors and has no visible effect here.) -/
def SandboxMCP.executeCode (sessionId : String) (m0 m1 : MCPSessionMap)
    (startResult : Option PyErr) (freshRuntimeId : Nat) (tAcquire tExit : Nat)
    (execOutcome : Except PyErr ExecutionResult) : ScopeStep ExecutionResult :=
  match SandboxMCP.getOrCreateSession sessionId m0 m1 startResult freshRuntimeId tAcquire with
  | (m, .error e) => .done m (.error e)
  | (m, .ok session) =>
    if session.active then
      match execOutcome with
      | .error e => .done m (.error e)
      | .ok result =>
        .done (alistSet m sessionId { session with lastAccessed := tExit }) (.ok result)
    else
      .retry m


/-! ## Claim theorems -/

/-- Auxiliary: a successful `decodePyBytes` yields text that re-encodes
to exactly the captured bytes. -/
theorem decodePyBytes_sound {o : Option (List Nat)} {cs : List Nat}
    (h : decodePyBytes o = .ok cs) : encodeUtf8 cs = optBytes o := by
  match o with
  | none =>
    simp [decodePyBytes] at h
    simp [h, encodeUtf8, optBytes]
  | some bs =>
    rw [decodePyBytes] at h
    split at h
    · simp_all [optBytes, encodeUtf8, List.isEmpty_iff]
    · split at h
      · simp only [Except.ok.injEq] at h
        subst h
        simp [optBytes]
        exact decodeUtf8_sound (by assumption)
      · simp at h

/-- Auxiliary: `decodePyBytes` fails only with `UnicodeDecodeError`. -/
theorem decodePyBytes_error {o : Option (List Nat)} {e : PyErr}
    (h : decodePyBytes o = .error e) : e = .unicodeDecodeError := by
  match o with
  | none => simp [decodePyBytes] at h
  | some bs =>
    rw [decodePyBytes] at h
    split at h
    · simp at h
    · split at h
      · simp at h
      · simp only [Except.error.injEq] at h
        exact h.symm

/-- C1: running code that creates `new.png` and `notes.txt` while
deleting `config.json` and modifying `data.csv` is claimed to yield
exactly two artifact entries.  In the code, every per-addition call
`self.artifact_manager.process_file(local_path, filename)`
(docker.py:266) raises `TypeError` — `ArtifactManager.process_file`
(artifacts.py:41-43) requires the four arguments `file_path`,
`original_filename`, `context`, `session_id` — and the per-artifact
handler logs and skips it, so the returned `artifacts` list is empty
even though both additions are detected and both downloads succeed.
The last three conjuncts show that §4.2 processing itself, had it been
reached, would have produced exactly the claimed entries. -/
theorem artifact_diff_scenario_yields_no_artifacts :
    (DockerRuntime.execute ⟨[], 60, false, some []⟩ "make files" .python
      ⟨1, 0, none, none, ["config.json", "data.csv"],
        ["data.csv", "new.png", "notes.txt"],
        fun _ => some [137, 80, 78, 71], fun _ => none⟩).2 =
        .ok ⟨[], [], 0, [], 1⟩
  ∧ ["data.csv", "new.png", "notes.txt"].filter
      (fun f => ¬ (["config.json", "data.csv"].contains f)) = ["new.png", "notes.txt"]
  ∧ callProcessFile false none [137, 80, 78, 71] "new.png" "new.png" = .error .typeError
  ∧ (ArtifactManager.processFile false none [137, 80, 78, 71] "new.png" "new.png").url =
      some ("data:image/png;base64," ++ base64Encode [137, 80, 78, 71])
  ∧ (ArtifactManager.processFile false none [104, 105] "notes.txt" "notes.txt").contentType =
      some "text/plain"
  ∧ (ArtifactManager.processFile false none [104, 105] "notes.txt" "notes.txt").url = none := by
  refine ⟨rfl, by decide, rfl, rfl, rfl, rfl⟩

/-- C2 counterexample: the E2B driver's `install_package`
(e2b.py:72-96) runs `pip install leftpad` and succeeds although
`leftpad` is not in the configured allowlist (config.py's default):
the claim that every driver rejects non-allowlisted specs with
`PackageNotAllowed` is false on this driver. -/
theorem e2b_install_not_allowlisted_succeeds :
    E2BRuntime.installPackage ⟨60, false, some 0, 1⟩ "leftpad" true =
      (.ok (), some "pip install leftpad")
  ∧ (defaultAllowedPackages.map (fun p => pyToLower p)).contains "leftpad" = false := by
  refine ⟨rfl, by decide⟩

/-- C2 (amended): only the Docker driver enforces the allowlist.  Its
`install_package` parses the base name from the version specifiers,
compares case-insensitively against the lower-cased allowlist, and
fails with the `PackageNotAllowed` `ValueError` without running any
install work when the name is absent; an allowlisted spec such as
`PaNdAs>=1.0,<2.0` against allowlist entry `pandas` is accepted.  The
E2B driver performs no allowlist check and runs `pip install` for
every spec. -/
theorem install_allowlist_docker_only :
    (∀ (rt : DockerRuntime) (stray : List String) (spec name : String)
        (hostDownloadOk : Bool) (pipExit : Int),
        rt.container = some stray →
        parseRequirementName spec = some name →
        (rt.allowedPackages.map (fun p => pyToLower p)).contains (pyToLower name) = false →
        rt.installPackage spec hostDownloadOk pipExit =
          (.error (.valueError (notAllowedMsg spec (pyToLower name))), false))
  ∧ (∀ (rt : DockerRuntime) (stray : List String) (spec name : String),
        rt.container = some stray →
        parseRequirementName spec = some name →
        (rt.allowedPackages.map (fun p => pyToLower p)).contains (pyToLower name) = true →
        rt.installPackage spec true 0 = (.ok (), true))
  ∧ parseRequirementName "PaNdAs>=1.0,<2.0" = some "PaNdAs"
  ∧ (DockerRuntime.installPackage ⟨["pandas"], 60, false, some []⟩ "PaNdAs>=1.0,<2.0" true 0 =
      (.ok (), true))
  ∧ (∀ (rt : E2BRuntime) (sb : Nat) (spec : String),
        rt.sandbox = some sb →
        rt.installPackage spec true = (.ok (), some ("pip install " ++ spec))) := by
  refine ⟨?_, ?_, by decide, rfl, ?_⟩
  · intro rt stray spec name hostDownloadOk pipExit hc hp hall
    unfold DockerRuntime.installPackage
    rw [hc, hp]
    simp only [hall]
    simp
  · intro rt stray spec name hc hp hall
    unfold DockerRuntime.installPackage
    rw [hc, hp]
    simp only [hall]
    simp
  · intro rt sb spec hs
    unfold E2BRuntime.installPackage
    rw [hs]
    simp

theorem install_allowlist_docker_only_witness :
    DockerRuntime.installPackage ⟨["pandas"], 60, false, some []⟩ "leftpad" true 0 =
      (.error (.valueError (notAllowedMsg "leftpad" "leftpad")), false) :=
  install_allowlist_docker_only.1 ⟨["pandas"], 60, false, some []⟩ [] "leftpad" "leftpad"
    true 0 rfl (by decide) (by decide)

/-- C3 counterexample: an `execute` whose captured stdout is the single
byte `0xFF` (not valid UTF-8) fails with `UnicodeDecodeError`
(docker.py:250 decodes with the strict handler), contradicting the
claim that invalid bytes are replaced and `execute` never fails for
this reason. -/
theorem docker_execute_invalid_utf8_raises :
    (DockerRuntime.execute ⟨[], 60, false, some []⟩ "x" .python
      ⟨1, 0, some [255], none, [], [], fun _ => none, fun _ => none⟩).2 =
      .error .unicodeDecodeError := by
  rfl

/-- C3 (amended): docker's `execute` decodes the captured stdout and
stderr bytes as strict UTF-8: every call that does not time out either
returns text whose UTF-8 encoding is exactly the captured bytes
(nothing replaced), or raises `UnicodeDecodeError` when either stream
is not valid UTF-8 — the call is rejected, not repaired. -/
theorem docker_execute_strict_utf8 :
    ∀ (rt : DockerRuntime) (stray : List String) (code : String) (language : Language)
      (beh : ExecBehavior),
      rt.container = some stray →
      beh.time ≤ rt.timeout →
      (∃ r, (rt.execute code language beh).2 = .ok r ∧
          encodeUtf8 r.stdout = optBytes beh.stdout ∧
          encodeUtf8 r.stderr = optBytes beh.stderr) ∨
        (rt.execute code language beh).2 = .error .unicodeDecodeError := by
  intro rt stray code language beh hc ht
  unfold DockerRuntime.execute
  rw [hc]
  simp only [if_neg (by omega : ¬ rt.timeout < beh.time)]
  cases h1 : decodePyBytes beh.stdout with
  | error e =>
    right
    simp [h1, decodePyBytes_error h1]
  | ok stdoutStr =>
    cases h2 : decodePyBytes beh.stderr with
    | error e =>
      right
      simp [h1, h2, decodePyBytes_error h2]
    | ok stderrStr =>
      left
      refine ⟨⟨stdoutStr, stderrStr, beh.exitCode,
        collectArtifacts (beh.filesAfter.filter (fun f => ¬ beh.filesBefore.contains f))
          beh.download rt.storageConfigured beh.upload, beh.time⟩,
        ?_, decodePyBytes_sound h1, decodePyBytes_sound h2⟩
      simp [h1, h2]

theorem docker_execute_strict_utf8_witness :
    (∃ r, (DockerRuntime.execute ⟨[], 60, false, some []⟩ "print" .python
        ⟨2, 0, some [104, 105], none, [], [], fun _ => none, fun _ => none⟩).2 = .ok r ∧
        encodeUtf8 r.stdout = optBytes (some [104, 105]) ∧
        encodeUtf8 r.stderr = optBytes none) ∨
      (DockerRuntime.execute ⟨[], 60, false, some []⟩ "print" .python
        ⟨2, 0, some [104, 105], none, [], [], fun _ => none, fun _ => none⟩).2 =
        .error .unicodeDecodeError :=
  docker_execute_strict_utf8 ⟨[], 60, false, some []⟩ [] "print" .python
    ⟨2, 0, some [104, 105], none, [], [], fun _ => none, fun _ => none⟩ rfl (by decide)

/-- C4: when an `execute` outlives the configured timeout, the Docker
driver restarts its container — clearing every process in it — and
raises `Timeout` (docker.py:239-245), leaving the container running
with no stray processes, and the next `execute` on the same runtime
succeeds; the E2B driver closes the remote sandbox and opens a
replacement (e2b.py:153-162) — a sandbox id distinct from every
previously issued one — and the next `execute` on the replacement
succeeds. -/
theorem timeout_clears_process_and_recovers :
    (∀ (rt : DockerRuntime) (stray : List String) (code : String) (language : Language)
        (beh : ExecBehavior),
        rt.container = some stray → rt.timeout < beh.time →
        rt.execute code language beh = ({ rt with container := some [] }, .error .timeoutError))
  ∧ (∀ (rt : DockerRuntime) (code : String) (language : Language) (beh : ExecBehavior),
        rt.container = some [] → beh.time ≤ rt.timeout →
        beh.stdout = none → beh.stderr = none →
        ∃ r, (rt.execute code language beh).2 = .ok r)
  ∧ (∀ (rt : E2BRuntime) (g : Nat) (code : String) (beh : E2BBehavior),
        rt.sandbox = some g → rt.timeout < beh.cmdTime →
        rt.executeBash code beh =
          ({ rt with
              sandbox := some rt.nextSandboxId
              nextSandboxId := rt.nextSandboxId + 1 }, .error .timeoutError)
          ∧ (g < rt.nextSandboxId → some rt.nextSandboxId ≠ rt.sandbox))
  ∧ (∀ (rt : E2BRuntime) (g : Nat) (code : String) (beh : E2BBehavior),
        rt.sandbox = some g → beh.cmdTime ≤ rt.timeout →
        ∃ r, (rt.executeBash code beh).2 = .ok r) := by
  refine ⟨?_, ?_, ?_, ?_⟩
  · intro rt stray code language beh hc ht
    unfold DockerRuntime.execute
    rw [hc]
    simp [if_pos ht]
  · intro rt code language beh hc ht hso hse
    unfold DockerRuntime.execute
    rw [hc]
    simp only [if_neg (by omega : ¬ rt.timeout < beh.time)]
    rw [hso, hse]
    exact ⟨_, rfl⟩
  · intro rt g code beh hs ht
    constructor
    · unfold E2BRuntime.executeBash
      rw [hs]
      simp [if_pos ht, E2BRuntime.start]
    · intro hlt
      rw [hs]
      simp only [ne_eq, Option.some.injEq]
      omega
  · intro rt g code beh hs ht
    unfold E2BRuntime.executeBash
    rw [hs]
    simp only [if_neg (by omega : ¬ rt.timeout < beh.cmdTime)]
    exact ⟨_, rfl⟩

theorem timeout_clears_process_and_recovers_witness :
    DockerRuntime.execute ⟨[], 1, false, some ["python -c while True: pass"]⟩ "loop" .python
      ⟨5, 0, none, none, [], [], fun _ => none, fun _ => none⟩ =
      ({ allowedPackages := [], timeout := 1, storageConfigured := false,
         container := some [] }, .error .timeoutError) :=
  timeout_clears_process_and_recovers.1 ⟨[], 1, false, some ["python -c while True: pass"]⟩
    ["python -c while True: pass"] "loop" .python
    ⟨5, 0, none, none, [], [], fun _ => none, fun _ => none⟩ rfl (by decide)



/-- C5: `get_or_create_session` fails with `AccessDenied`
(`PermissionError`) whenever the registered session's owner differs
from the caller, on the optimistic read (session_manager.py:74-83) as
well as on the double-checked read under the creation lock
(session_manager.py:85-95); consequently every session it returns is
owned by the caller. -/
theorem get_or_create_enforces_ownership :
    (∀ (sid uid : String) (m0 m1 : SessionMap) (start : Option PyErr) (rid now : Nat)
        (s : Session),
        sid ≠ "" →
        alistLookup m0 sid = some s → s.ownerId ≠ uid →
        (SessionManager.getOrCreateSession sid (some uid) m0 m1 start rid now).2 =
          .error .permissionError)
  ∧ (∀ (sid uid : String) (m0 m1 : SessionMap) (start : Option PyErr) (rid now : Nat)
        (s : Session),
        sid ≠ "" →
        alistLookup m0 sid = none → alistLookup m1 sid = some s → s.ownerId ≠ uid →
        (SessionManager.getOrCreateSession sid (some uid) m0 m1 start rid now).2 =
          .error .permissionError)
  ∧ (∀ (sid uid : String) (m0 m1 : SessionMap) (start : Option PyErr) (rid now : Nat)
        (m' : SessionMap) (s : Session),
        SessionManager.getOrCreateSession sid (some uid) m0 m1 start rid now = (m', .ok s) →
        s.ownerId = uid) := by
  refine ⟨?_, ?_, ?_⟩
  · intro sid uid m0 m1 start rid now s hsid h0 hown
    unfold SessionManager.getOrCreateSession
    rw [if_neg hsid, h0]
    simp [hown]
  · intro sid uid m0 m1 start rid now s hsid h0 h1 hown
    unfold SessionManager.getOrCreateSession
    rw [if_neg hsid, h0, h1]
    simp [hown]
  · intro sid uid m0 m1 start rid now m' s h
    unfold SessionManager.getOrCreateSession at h
    repeat' split at h
    all_goals simp_all
    all_goals rw [← h.2]

theorem get_or_create_enforces_ownership_witness :
    (SessionManager.getOrCreateSession "s1" (some "u2")
        [("s1", { runtimeId := 0, lastAccessed := 0, ownerId := "u1", active := true })]
        [("s1", { runtimeId := 0, lastAccessed := 0, ownerId := "u1", active := true })]
        none 1 10).2 = .error .permissionError :=
  get_or_create_enforces_ownership.1 "s1" "u2"
    [("s1", { runtimeId := 0, lastAccessed := 0, ownerId := "u1", active := true })]
    [("s1", { runtimeId := 0, lastAccessed := 0, ownerId := "u1", active := true })]
    none 1 10 { runtimeId := 0, lastAccessed := 0, ownerId := "u1", active := true }
    (by decide) rfl (by decide)

/-- C6 counterexample: with session `s1` registered (last accessed 0,
active), acquisition at time 5 and the driver raising `Timeout` with
exit-time reading 9, `execute_code` releases the mutex with
`last_accessed = 5` — the acquisition-time value written inside
`_get_or_create_session` — not 9: the timestamp is not updated on the
error exit, refuting "updated before the session mutex is released on
every operation exit". -/
theorem execute_code_error_exit_keeps_acquire_timestamp :
    SandboxMCP.executeCode "s1"
        [("s1", { runtimeId := 0, lastAccessed := 0, active := true })]
        [("s1", { runtimeId := 0, lastAccessed := 0, active := true })]
        none 7 5 9 (.error .timeoutError) =
      .done [("s1", { runtimeId := 0, lastAccessed := 5, active := true })]
        (.error .timeoutError)
  ∧ ({ runtimeId := 0, lastAccessed := 5, active := true } : MCPSession) ≠
      { runtimeId := 0, lastAccessed := 9, active := true } := by
  refine ⟨rfl, by decide⟩

/-- C6 (amended): the scope updates `last_accessed` when the session is
acquired inside `_get_or_create_session`, and again — with the
operation-exit reading — only on the success path (mcp.py:124) before
the mutex is released; when `driver.execute` raises (e.g. `Timeout`)
the exception propagates out of the locked block and the exit-time
update is skipped, leaving the acquisition-time value. -/
theorem last_accessed_update_on_success_only :
    ∀ (sid : String) (m0 m1 : MCPSessionMap) (start : Option PyErr)
      (rid tAcquire tExit : Nat) (s : MCPSession)
      (outcome : Except PyErr ExecutionResult),
      alistLookup m0 sid = some s → s.active = true →
      (∀ r, outcome = .ok r →
        SandboxMCP.executeCode sid m0 m1 start rid tAcquire tExit outcome =
          .done (alistSet (alistSet m0 sid { s with lastAccessed := tAcquire }) sid
            { s with lastAccessed := tExit }) (.ok r)) ∧
      (∀ e, outcome = .error e →
        SandboxMCP.executeCode sid m0 m1 start rid tAcquire tExit outcome =
          .done (alistSet m0 sid { s with lastAccessed := tAcquire }) (.error e)) := by
  intro sid m0 m1 start rid tAcquire tExit s outcome h0 hact
  unfold SandboxMCP.executeCode SandboxMCP.getOrCreateSession
  rw [h0]
  constructor
  · intro r hr
    subst hr
    simp [hact]
  · intro e he
    subst he
    simp [hact]

theorem last_accessed_update_on_success_only_witness :
    SandboxMCP.executeCode "s1"
        [("s1", { runtimeId := 3, lastAccessed := 1, active := true })]
        [("s1", { runtimeId := 3, lastAccessed := 1, active := true })]
        none 7 5 9 (.error .timeoutError) =
      .done (alistSet [("s1", { runtimeId := 3, lastAccessed := 1, active := true })] "s1"
        { runtimeId := 3, lastAccessed := 5, active := true }) (.error .timeoutError) :=
  ((last_accessed_update_on_success_only "s1"
      [("s1", { runtimeId := 3, lastAccessed := 1, active := true })]
      [("s1", { runtimeId := 3, lastAccessed := 1, active := true })]
      none 7 5 9 { runtimeId := 3, lastAccessed := 1, active := true }
      (.error .timeoutError) rfl rfl).2) .timeoutError rfl

/-- C7: when `runtime.start()` raises during creation
(session_manager.py:105), no session is inserted, the creation mutex
is released and the error propagates: the map is exactly as the
double-check saw it, and a subsequent call for the same id (with a
working backend) creates a fresh session cleanly. -/
theorem failed_start_leaves_map_unchanged :
    ∀ (sid uid : String) (m0 m1 : SessionMap) (e : PyErr) (rid now : Nat),
      sid ≠ "" →
      alistLookup m0 sid = none → alistLookup m1 sid = none →
      SessionManager.getOrCreateSession sid (some uid) m0 m1 (some e) rid now =
        (m1, .error e)
    ∧ SessionManager.getOrCreateSession sid (some uid) m1 m1 none rid now =
        (alistSet m1 sid { runtimeId := rid, lastAccessed := now, ownerId := uid, active := true },
         .ok { runtimeId := rid, lastAccessed := now, ownerId := uid, active := true }) := by
  intro sid uid m0 m1 e rid now hsid h0 h1
  constructor
  · unfold SessionManager.getOrCreateSession
    rw [if_neg hsid, h0, h1]
  · unfold SessionManager.getOrCreateSession
    rw [if_neg hsid, h1]

theorem failed_start_leaves_map_unchanged_witness :
    SessionManager.getOrCreateSession "s1" (some "u1") [] [] (some .backendError) 1 10 =
        ([], .error .backendError)
    ∧ SessionManager.getOrCreateSession "s1" (some "u1") [] [] none 1 10 =
        (alistSet [] "s1" { runtimeId := 1, lastAccessed := 10, ownerId := "u1", active := true },
         .ok { runtimeId := 1, lastAccessed := 10, ownerId := "u1", active := true }) :=
  failed_start_leaves_map_unchanged "s1" "u1" [] [] .backendError 1 10
    (by decide) rfl rfl

/-- C8: `shutdown` cancels the reaper exactly when it was running,
terminates exactly the snapshot of registered sessions, and clears the
map; a second consecutive call finds an empty map and a stopped
reaper, so it cancels nothing and terminates nothing — the same
observable state as after the first call — and terminate exceptions
(`_terminateFails`) influence nothing. -/
theorem shutdown_idempotent :
    ∀ (st : ManagerState) (f g : Nat → Bool),
      (SessionManager.shutdown st f).2.terminatedRuntimes =
          st.sessions.map (fun p => p.2.runtimeId)
    ∧ (SessionManager.shutdown st f).2.reaperCancelled = st.reaperRunning
    ∧ (SessionManager.shutdown st f).1 = { sessions := [], reaperRunning := false }
    ∧ SessionManager.shutdown (SessionManager.shutdown st f).1 g =
        ({ sessions := [], reaperRunning := false },
         { reaperCancelled := false, terminatedRuntimes := [] }) := by
  intro st f g
  refine ⟨rfl, rfl, rfl, rfl⟩

/-- C9: the MCP façade's session lookup takes no user context: it
never raises `AccessDenied` of its own, it hands any registered
session to whoever asks for its id, and the empty-string session id is
accepted and keys a freshly created session. -/
theorem mcp_layer_has_no_ownership_checks :
    (∀ (sid : String) (m0 m1 : MCPSessionMap) (start : Option PyErr) (rid now : Nat),
        start ≠ some .permissionError →
        (SandboxMCP.getOrCreateSession sid m0 m1 start rid now).2 ≠
          .error .permissionError)
  ∧ (∀ (sid : String) (m0 m1 : MCPSessionMap) (start : Option PyErr) (rid now : Nat)
        (s : MCPSession),
        alistLookup m0 sid = some s →
        (SandboxMCP.getOrCreateSession sid m0 m1 start rid now).2 =
          .ok { s with lastAccessed := now })
  ∧ (∀ (m0 m1 : MCPSessionMap) (rid now : Nat),
        alistLookup m0 "" = none → alistLookup m1 "" = none →
        SandboxMCP.getOrCreateSession "" m0 m1 none rid now =
          (alistSet m1 "" { runtimeId := rid, lastAccessed := now, active := true },
           .ok { runtimeId := rid, lastAccessed := now, active := true })) := by
  refine ⟨?_, ?_, ?_⟩
  · intro sid m0 m1 start rid now hstart
    unfold SandboxMCP.getOrCreateSession
    repeat' split
    all_goals simp_all
  · intro sid m0 m1 start rid now s h0
    unfold SandboxMCP.getOrCreateSession
    rw [h0]
  · intro m0 m1 rid now h0 h1
    unfold SandboxMCP.getOrCreateSession
    rw [h0, h1]

theorem mcp_layer_has_no_ownership_checks_witness :
    (SandboxMCP.getOrCreateSession "s1"
        [("s1", { runtimeId := 2, lastAccessed := 0, active := true })]
        [("s1", { runtimeId := 2, lastAccessed := 0, active := true })]
        none 9 42).2 =
      .ok { runtimeId := 2, lastAccessed := 42, active := true } :=
  mcp_layer_has_no_ownership_checks.2.1 "s1"
    [("s1", { runtimeId := 2, lastAccessed := 0, active := true })]
    [("s1", { runtimeId := 2, lastAccessed := 0, active := true })]
    none 9 42 { runtimeId := 2, lastAccessed := 0, active := true } rfl

/-- C10: when the backend listing fails, both drivers return the empty
list instead of raising — Docker's `list_files` on a non-zero `ls`
exit code (with its log-side decode succeeding, e.g. the ASCII stderr
of a nonexistent path), E2B's on any SDK exception — and a successful
listing of an empty directory returns the same empty list, so a
caller cannot tell the two apart. -/
theorem list_files_failure_returns_empty :
    (∀ (rt : DockerRuntime) (stray : List String) (path : String) (lsExit : Int)
        (lsOutput text : List Nat),
        rt.container = some stray → lsExit ≠ 0 →
        (lsOutput = [] ∨ decodeUtf8? lsOutput = some text) →
        rt.listFiles path lsExit lsOutput = .ok [])
  ∧ (∀ (rt : E2BRuntime) (g : Nat),
        rt.sandbox = some g → rt.listFiles (.error ()) = .ok [])
  ∧ (∀ (rt : DockerRuntime) (stray : List String) (path : String),
        rt.container = some stray → rt.listFiles path 0 [] = .ok []) := by
  refine ⟨?_, ?_, ?_⟩
  · intro rt stray path lsExit lsOutput text hc hexit hout
    unfold DockerRuntime.listFiles
    rw [hc]
    rcases hout with h | h
    · subst h
      simp [hexit]
    · simp [hexit, h]
  · intro rt g hs
    unfold E2BRuntime.listFiles
    rw [hs]
  · intro rt stray path hc
    unfold DockerRuntime.listFiles
    rw [hc]
    simp [decodeUtf8?, decodeUtf8Aux, splitLines, splitLinesAux]

theorem list_files_failure_returns_empty_witness :
    DockerRuntime.listFiles ⟨[], 60, false, some []⟩ "missing" 2
      [78, 111, 32, 115, 117, 99, 104, 32, 102, 105, 108, 101] = .ok [] :=
  list_files_failure_returns_empty.1 ⟨[], 60, false, some []⟩ [] "missing" 2
    [78, 111, 32, 115, 117, 99, 104, 32, 102, 105, 108, 101]
    [78, 111, 32, 115, 117, 99, 104, 32, 102, 105, 108, 101]
    rfl (by decide) (Or.inr (by decide))

end CoreasonSandbox
